import Mathlib

/-!
Shallow embedding of `src/scheduler-check.py` (class `GlobalEntryChecker`).

The script performs one Fetch → Filter → Notify cycle:
* `check_appointments` issues an HTTP GET, parses the JSON body (a single
  appointment object or a falsy value), filters it against an optional
  target date and returns a list of normalized slot dicts (or `None`);
* `send_notification` composes and sends one email over SMTP-SSL, guarded
  by a credential-presence check;
* `run` sequences the two, invoking the notifier only when the returned
  collection is truthy.

External effects (the HTTP response, SMTP transport outcome, the current
wall-clock string used in prints) are passed in as explicit parameters;
printed lines and attempted SMTP operations are returned as traces.
Python exceptions that escape a method are modelled with `Except String`;
exceptions caught inside a method never surface in the result.

Every method of the class is embedded in state-passing style: it receives
the `Checker` object and returns it in the result record, translating the
fact that the Python method bodies contain no assignment to `self` fields.
-/

namespace GEC

/-- A calendar date, as produced by Python's
`datetime.strptime(s, '%Y-%m-%d')` (time fields are midnight and play no
role in the comparisons the script performs). -/
structure Date where
  year : Nat
  month : Nat
  day : Nat
deriving DecidableEq, Repr

/-- `datetime` ordering restricted to midnight datetimes: lexicographic on
(year, month, day). -/
def Date.le (a b : Date) : Bool :=
  a.year < b.year ||
  (a.year == b.year && (a.month < b.month ||
    (a.month == b.month && a.day ≤ b.day)))

/-- Number of days in a month, with Gregorian leap years, matching the
validation `datetime` performs on a parsed date. -/
def daysInMonth (y m : Nat) : Nat :=
  if m == 2 then
    if (y % 4 == 0 && y % 100 != 0) || y % 400 == 0 then 29 else 28
  else if m == 4 || m == 6 || m == 9 || m == 11 then 30 else 31

/-- Python `str.split(sep)` for a one-character separator, on the
character list of the string: `""` splits to `[""]`, and separators at
the ends produce empty parts, exactly as in Python. -/
def splitOnChar (sep : Char) : List Char → List (List Char)
  | [] => [[]]
  | c :: rest =>
    let r := splitOnChar sep rest
    if c == sep then [] :: r
    else (c :: r.headD []) :: r.tail

/-- The numeric value of a list of decimal digit characters. -/
def digitsVal (l : List Char) : Nat :=
  l.foldl (fun n c => n * 10 + (c.toNat - 48)) 0

/-- `datetime.strptime(s, '%Y-%m-%d')` as a total function: `some d` when
the whole string matches the format and denotes a valid date, `none` when
strptime would raise `ValueError`.  `%Y` matches exactly four digits, `%m`
and `%d` one or two digits with value in range, the three fields are
separated by literal hyphens with no surrounding data, and `datetime`
additionally requires year ≥ 1 and a day valid for the month. -/
def parseYMD (s : String) : Option Date :=
  match splitOnChar '-' s.data with
  | [ys, ms, ds] =>
    if ys.length = 4 ∧ ys.all Char.isDigit
        ∧ (ms.length = 1 ∨ ms.length = 2) ∧ ms.all Char.isDigit
        ∧ (ds.length = 1 ∨ ds.length = 2) ∧ ds.all Char.isDigit then
      let y := digitsVal ys
      let m := digitsVal ms
      let d := digitsVal ds
      if 1 ≤ y ∧ 1 ≤ m ∧ m ≤ 12 ∧ 1 ≤ d ∧ d ≤ daysInMonth y m then
        some ⟨y, m, d⟩
      else none
    else none
  | _ => none

/-- `slot['timestamp'].split('T')[0]`: the part of the timestamp string
before the first `T` (the whole string when no `T` occurs). -/
def timestampDatePart (ts : String) : String :=
  String.mk (ts.data.takeWhile (fun c => !(c == 'T')))

/-- A truthy JSON appointment object, as far as the script reads it: the
three fields it accesses, each possibly absent.  (A truthy object lacking
all three corresponds to a JSON object carrying only other keys.) -/
structure RawSlot where
  timestamp : Option String
  active : Option Int
  total : Option Int
deriving DecidableEq, Repr

/-- The decoded JSON body of a successful (2xx) response: either a falsy
value (`null`, `{}`, `[]`, `""`, `0`, `false` — all handled identically by
`if not appointment`) or a truthy appointment object. -/
inductive Body where
  | falsy
  | record (slot : RawSlot)
deriving DecidableEq, Repr

/-- Outcome of the `requests.get` / `raise_for_status` / `json()` prefix of
`check_appointments`: a decoded body, or a `requests.exceptions.
RequestException` (connection failure, non-2xx status, JSON decode error)
with its message. -/
inductive FetchOutcome where
  | success (body : Body)
  | requestError (msg : String)
deriving DecidableEq, Repr

/-- The `GlobalEntryChecker` object after `__init__`: configuration fields
only, all written once at construction. -/
structure Checker where
  base_url : String
  location_id : String
  target_date : Option Date
  check_interval : Nat
  headersUserAgent : String
  email_sender : Option String
  email_password : Option String
  email_recipient : Option String
deriving DecidableEq, Repr

/-- Left-pad a numeral with zeros, for `strftime` field formatting. -/
def padNum (width n : Nat) : String :=
  let s := toString n
  String.mk (List.replicate (width - s.length) '0') ++ s

/-- `date.strftime('%Y-%m-%d')`. -/
def Date.fmt (d : Date) : String :=
  padNum 4 d.year ++ "-" ++ padNum 2 d.month ++ "-" ++ padNum 2 d.day

/-- `GlobalEntryChecker.__init__`: stores the configuration, parsing the
optional target-date string with `strptime('%Y-%m-%d')` (which raises on a
malformed string — modelled as `.error`).  The three email fields come
from the environment (`os.environ.get`, `none` when unset). -/
def mkChecker (location_id : String) (target_date : Option String)
    (check_interval : Nat)
    (env_sender env_password env_recipient : Option String) :
    Except String Checker :=
  match target_date with
  | none =>
    .ok { base_url := "https://ttp.cbp.dhs.gov/schedulerapi/locations/{}/slots?minimum=1"
          location_id := location_id
          target_date := none
          check_interval := check_interval
          headersUserAgent := "Mozilla/5.0 (Windows NT 10.0; Win64; x64) AppleWebKit/537.36 (KHTML, like Gecko) Chrome/91.0.4472.124 Safari/537.36"
          email_sender := env_sender
          email_password := env_password
          email_recipient := env_recipient }
  | some s =>
    match parseYMD s with
    | none => .error ("ValueError: time data " ++ s ++ " does not match format %Y-%m-%d")
    | some d =>
      .ok { base_url := "https://ttp.cbp.dhs.gov/schedulerapi/locations/{}/slots?minimum=1"
            location_id := location_id
            target_date := some d
            check_interval := check_interval
            headersUserAgent := "Mozilla/5.0 (Windows NT 10.0; Win64; x64) AppleWebKit/537.36 (KHTML, like Gecko) Chrome/91.0.4472.124 Safari/537.36"
            email_sender := env_sender
            email_password := env_password
            email_recipient := env_recipient }

/-- A normalized entry of `available_slots`: the dict
`{'startTimestamp': …, 'active': …, 'total': …}` built at inclusion. -/
structure OutSlot where
  startTimestamp : String
  active : Int
  total : Int
deriving DecidableEq, Repr

/-- Result of `check_appointments`: the object (unchanged), the lines
printed, and either a Python return value (`none` for `return None`,
`some slots` for the list) or an uncaught exception. -/
structure CheckRes where
  self : Checker
  output : List String
  result : Except String (Option (List OutSlot))
deriving Repr

/-- `GlobalEntryChecker.check_appointments`.  `fetch` is the outcome of
the HTTP request, `now` the `datetime.now().strftime(…)` string.  The
`try` block catches only `requests.exceptions.RequestException`; a
present-but-unparseable timestamp makes the inner `strptime` raise a
`ValueError` that propagates out of the method. -/
def check_appointments (c : Checker) (fetch : FetchOutcome) (now : String) :
    CheckRes :=
  match fetch with
  | .requestError e =>
    { self := c
      output := ["Error checking appointments: " ++ e]
      result := .ok none }
  | .success .falsy =>
    { self := c
      output := ["No appointments found at " ++ now]
      result := .ok none }
  | .success (.record slot) =>
    match slot.timestamp with
    | none =>
      -- `'timestamp' not in slot` → continue; loop ends with an empty list
      { self := c, output := [], result := .ok (some []) }
    | some ts =>
      match parseYMD (timestampDatePart ts) with
      | none =>
        { self := c
          output := []
          result := .error ("ValueError: time data " ++ timestampDatePart ts
            ++ " does not match format %Y-%m-%d") }
      | some slot_date =>
        if c.target_date.isNone || Date.le slot_date (c.target_date.getD slot_date) then
          let out : OutSlot :=
            { startTimestamp := ts
              active := slot.active.getD 0
              total := slot.total.getD 0 }
          { self := c
            output := ["Found slots on: " ++ out.startTimestamp
              ++ ", Active: " ++ toString out.active
              ++ ", Total: " ++ toString out.total]
            result := .ok (some [out]) }
        else
          { self := c, output := [], result := .ok (some []) }

/-- The Available-Slots Collection denoted by a `check_appointments`
result: the returned list, empty when the method returned `None` or
raised. -/
def includedSlots (r : Except String (Option (List OutSlot))) : List OutSlot :=
  match r with
  | .ok (some l) => l
  | _ => []

/-- Python truthiness of the value `check_appointments` returned:
`None` and `[]` are falsy, a non-empty list is truthy. -/
def truthyResult (v : Option (List OutSlot)) : Bool :=
  match v with
  | none => false
  | some l => !l.isEmpty

/-- Python truthiness of an `os.environ.get` result: falsy when the
variable is unset (`None`) or set to the empty string. -/
def truthyEnv (v : Option String) : Bool :=
  match v with
  | none => false
  | some s => !(s == "")

/-- The composed MIME text message: payload plus the `Subject`, `From`
and `To` headers set on it. -/
structure EmailMsg where
  subject : String
  fromAddr : String
  toAddr : String
  bodyText : String
deriving DecidableEq, Repr

/-- One network operation attempted inside the `with SMTP_SSL` block. -/
inductive SmtpAction where
  | connect (host : String) (port : Nat)
  | login (user : String) (password : String)
  | sendmail (fromAddr : String) (toAddr : String) (msg : EmailMsg)
deriving DecidableEq, Repr

/-- Where, if anywhere, the SMTP transport raises: at connection, at
`login`, at `sendmail`, or nowhere. -/
inductive SmtpOutcome where
  | ok
  | connectError (e : String)
  | loginError (e : String)
  | sendError (e : String)
deriving DecidableEq, Repr

/-- Result of `send_notification`: the object (unchanged), the printed
lines, the message that was composed (`none` when the credential guard
aborted before composing), and the SMTP operations attempted.  The method
never raises: its `try` catches every `Exception`. -/
structure NotifyRes where
  self : Checker
  output : List String
  composed : Option EmailMsg
  actions : List SmtpAction
deriving Repr

/-- The message body: `"Available Global Entry Appointments:\n\n"`
followed, for each slot, by its date, active and total lines and a
terminating blank line. -/
def composeBody (appointments : List OutSlot) : String :=
  appointments.foldl
    (fun acc apt =>
      acc ++ "Date: " ++ apt.startTimestamp ++ "\n"
          ++ "Active Slots: " ++ toString apt.active ++ "\n"
          ++ "Total Slots: " ++ toString apt.total ++ "\n\n")
    "Available Global Entry Appointments:\n\n"

/-- `GlobalEntryChecker.send_notification`.  Aborts with a printed
warning when `all([sender, password, recipient])` is falsy; otherwise
composes the message and attempts connect / login / sendmail, catching
any transport exception and printing it. -/
def send_notification (c : Checker) (appointments : List OutSlot)
    (smtp : SmtpOutcome) : NotifyRes :=
  if !(truthyEnv c.email_sender && truthyEnv c.email_password
        && truthyEnv c.email_recipient) then
    { self := c
      output := ["Email configuration missing. Please check your .env file."]
      composed := none
      actions := [] }
  else
    let sender := c.email_sender.getD ""
    let password := c.email_password.getD ""
    let recipient := c.email_recipient.getD ""
    let msg : EmailMsg :=
      { subject := "Global Entry Appointment Available!"
        fromAddr := sender
        toAddr := recipient
        bodyText := composeBody appointments }
    match smtp with
    | .ok =>
      { self := c
        output := ["Notification email sent successfully!"]
        composed := some msg
        actions := [.connect "smtp.gmail.com" 465, .login sender password,
          .sendmail sender recipient msg] }
    | .connectError e =>
      { self := c
        output := ["Error sending email notification: " ++ e]
        composed := some msg
        actions := [.connect "smtp.gmail.com" 465] }
    | .loginError e =>
      { self := c
        output := ["Error sending email notification: " ++ e]
        composed := some msg
        actions := [.connect "smtp.gmail.com" 465, .login sender password] }
    | .sendError e =>
      { self := c
        output := ["Error sending email notification: " ++ e]
        composed := some msg
        actions := [.connect "smtp.gmail.com" 465, .login sender password,
          .sendmail sender recipient msg] }

/-- Result of one `run` cycle: the object (unchanged), everything
printed, whether `send_notification` was invoked, the SMTP operations
attempted, and `.error` when an exception escaped the cycle. -/
structure RunRes where
  self : Checker
  output : List String
  notified : Bool
  actions : List SmtpAction
  result : Except String Unit
deriving Repr

/-- The startup banner line reporting the effective target date. -/
def targetBanner (c : Checker) : String :=
  "Looking for appointments before: "
    ++ (match c.target_date with
        | some d => Date.fmt d
        | none => "No date limit")

/-- `GlobalEntryChecker.run`: banner, one `check_appointments` call, and
— only if its value is truthy — a count line and one `send_notification`
call.  An exception raised by `check_appointments` propagates (nothing in
`run` catches it). -/
def run (c : Checker) (fetch : FetchOutcome) (now : String)
    (smtp : SmtpOutcome) : RunRes :=
  let banner := ["Starting Global Entry appointment checker for Salt Lake City...",
    targetBanner c]
  let chk := check_appointments c fetch now
  match chk.result with
  | .error e =>
    { self := chk.self, output := banner ++ chk.output, notified := false
      actions := [], result := .error e }
  | .ok v =>
    if truthyResult v then
      let appointments := v.getD []
      let ntf := send_notification chk.self appointments smtp
      { self := ntf.self
        output := banner ++ chk.output
          ++ ["Found " ++ toString appointments.length ++ " available appointments!"]
          ++ ntf.output
        notified := true
        actions := ntf.actions
        result := .ok () }
    else
      { self := chk.self, output := banner ++ chk.output, notified := false
        actions := [], result := .ok () }

/-- `needle` occurs as a substring of `hay`. -/
def containsStr (hay needle : String) : Prop :=
  ∃ p q, hay = p ++ (needle ++ q)

/-- A concrete checker as built by the script's `__main__` block with the
environment fully configured: `target_date="2025-05-01"`,
`check_interval=600`, default location `"5001"`. -/
def sampleChecker : Checker :=
  { base_url := "https://ttp.cbp.dhs.gov/schedulerapi/locations/{}/slots?minimum=1"
    location_id := "5001"
    target_date := some ⟨2025, 5, 1⟩
    check_interval := 600
    headersUserAgent := "Mozilla/5.0 (Windows NT 10.0; Win64; x64) AppleWebKit/537.36 (KHTML, like Gecko) Chrome/91.0.4472.124 Safari/537.36"
    email_sender := some "sender@example.com"
    email_password := some "hunter2"
    email_recipient := some "recipient@example.com" }

/-- The same checker with `EMAIL_SENDER` unset in the environment. -/
def noSenderChecker : Checker :=
  { sampleChecker with email_sender := none }

/-- C1: for every fetch result carrying a single slot record and every
configuration, a slot is included in the Available-Slots Collection
returned by `check_appointments` if and only if the record has a
`timestamp` field whose date portion parses as `YYYY-MM-DD`, and either
no target date is configured or the slot's date is ≤ the target date. -/
theorem C1_slot_included_iff (c : Checker) (slot : RawSlot) (now : String) :
    (∃ out, out ∈ includedSlots (check_appointments c (.success (.record slot)) now).result) ↔
    (∃ ts d, slot.timestamp = some ts ∧ parseYMD (timestampDatePart ts) = some d ∧
      (c.target_date = none ∨ ∃ t, c.target_date = some t ∧ Date.le d t = true)) := by
  obtain ⟨tso, ao, vo⟩ := slot
  cases tso with
  | none => simp [check_appointments, includedSlots]
  | some ts =>
    cases hp : parseYMD (timestampDatePart ts) with
    | none => simp [check_appointments, includedSlots, hp]
    | some d =>
      cases ht : c.target_date with
      | none => simp [check_appointments, includedSlots, hp, ht]
      | some t =>
        by_cases hle : Date.le d t = true
        · simp [check_appointments, includedSlots, hp, ht, hle]
        · simp [check_appointments, includedSlots, hp, ht, hle]

/-- C3: an empty/falsy raw fetch result yields the "no result" return
value — an empty Available-Slots Collection — and prints a timestamped
"No appointments found" status line. -/
theorem C3_falsy_fetch_empty (c : Checker) (now : String) :
    check_appointments c (.success .falsy) now =
      { self := c, output := ["No appointments found at " ++ now], result := .ok none } ∧
    includedSlots (check_appointments c (.success .falsy) now).result = [] :=
  ⟨rfl, rfl⟩

/-- C7: a truthy record lacking a `timestamp` field is silently skipped:
`check_appointments` returns normally (no exception) with an empty
collection and prints nothing for it. -/
theorem C7_missing_timestamp_skipped (c : Checker) (slot : RawSlot) (now : String)
    (h : slot.timestamp = none) :
    check_appointments c (.success (.record slot)) now =
      { self := c, output := [], result := .ok (some []) } ∧
    includedSlots (check_appointments c (.success (.record slot)) now).result = [] := by
  obtain ⟨tso, ao, vo⟩ := slot
  cases h
  exact ⟨rfl, rfl⟩

/-- Witness for C7 at a concrete record carrying only counts. -/
theorem C7_witness :
    check_appointments sampleChecker
        (.success (.record { timestamp := none, active := some 3, total := some 7 }))
        "2025-01-01 00:00:00" =
      { self := sampleChecker, output := [], result := .ok (some []) } ∧
    includedSlots (check_appointments sampleChecker
        (.success (.record { timestamp := none, active := some 3, total := some 7 }))
        "2025-01-01 00:00:00").result = [] :=
  C7_missing_timestamp_skipped sampleChecker
    { timestamp := none, active := some 3, total := some 7 } "2025-01-01 00:00:00" rfl

/-- C8: a `RequestException` (network error or non-2xx status) is caught:
the error is printed and the method returns `None`, the same value as for
an empty body, so downstream treats the two identically. -/
theorem C8_fetch_error_caught (c : Checker) (e : String) (now : String) :
    check_appointments c (.requestError e) now =
      { self := c, output := ["Error checking appointments: " ++ e], result := .ok none } ∧
    (check_appointments c (.requestError e) now).result =
      (check_appointments c (.success .falsy) now).result :=
  ⟨rfl, rfl⟩

/-- C6: a record whose timestamp parses and passes the date filter is
emitted exactly once, as the triple of the original timestamp string and
the `active` and `total` fields, each defaulting to 0 when absent. -/
theorem C6_included_slot_normalized (c : Checker) (slot : RawSlot) (ts : String)
    (d : Date) (now : String)
    (hts : slot.timestamp = some ts)
    (hd : parseYMD (timestampDatePart ts) = some d)
    (hok : c.target_date = none ∨ ∃ t, c.target_date = some t ∧ Date.le d t = true) :
    (check_appointments c (.success (.record slot)) now).result =
      .ok (some [{ startTimestamp := ts
                   active := slot.active.getD 0
                   total := slot.total.getD 0 }]) := by
  obtain ⟨tso, ao, vo⟩ := slot
  dsimp only at hts ⊢
  cases hts
  rcases hok with h | ⟨t, ht, hle⟩
  · simp [check_appointments, hd, h]
  · simp [check_appointments, hd, ht, hle]

/-- Witness for C6: an in-range slot with `active` absent defaults to 0. -/
theorem C6_witness :
    (check_appointments sampleChecker
        (.success (.record { timestamp := some "2025-04-15T09:00:00", active := none, total := some 5 }))
        "2025-01-01 00:00:00").result =
      .ok (some [{ startTimestamp := "2025-04-15T09:00:00", active := 0, total := 5 }]) :=
  C6_included_slot_normalized sampleChecker
    { timestamp := some "2025-04-15T09:00:00", active := none, total := some 5 }
    "2025-04-15T09:00:00" ⟨2025, 4, 15⟩ "2025-01-01 00:00:00" rfl (by decide)
    (Or.inr ⟨⟨2025, 5, 1⟩, rfl, by decide⟩)

/-- C4: `run` invokes `send_notification` exactly when the value returned
by `check_appointments` is a non-empty list. -/
theorem C4_notify_iff_nonempty (c : Checker) (fetch : FetchOutcome) (now : String)
    (smtp : SmtpOutcome) :
    (run c fetch now smtp).notified = true ↔
    (∃ l, (check_appointments c fetch now).result = .ok (some l) ∧ l ≠ []) := by
  cases hres : (check_appointments c fetch now).result with
  | error e => simp [run, hres]
  | ok v =>
    cases v with
    | none => simp [run, hres, truthyResult]
    | some l =>
      cases l with
      | nil => simp [run, hres, truthyResult]
      | cons a as => simp [run, hres, truthyResult]

/-- C2 (counterexample): a 2xx response whose body is a record with an
unparseable timestamp string makes the inner `strptime` raise a
`ValueError`, which the `except requests.exceptions.RequestException`
clause does not catch: the single run cycle ends with an uncaught
exception, refuting the claim for this response body. -/
theorem C2_counterexample :
    (run sampleChecker
        (.success (.record { timestamp := some "nonsense", active := none, total := none }))
        "2025-01-01 00:00:00" .ok).result =
      .error "ValueError: time data nonsense does not match format %Y-%m-%d" := by
  rfl

/-- C2 (amended): the single run cycle completes without an uncaught
exception for every fetch outcome in which any present `timestamp` field
has a date portion parsing as `YYYY-MM-DD` — network errors, falsy
bodies, records lacking a timestamp, out-of-range dates, missing
credentials and SMTP transport failures are all recovered locally. -/
theorem C2_run_completes (c : Checker) (fetch : FetchOutcome) (now : String)
    (smtp : SmtpOutcome)
    (h : ∀ slot ts, fetch = .success (.record slot) → slot.timestamp = some ts →
      (parseYMD (timestampDatePart ts)).isSome = true) :
    (run c fetch now smtp).result = .ok () := by
  obtain ⟨v, hv⟩ : ∃ v, (check_appointments c fetch now).result = .ok v := by
    cases fetch with
    | requestError e => exact ⟨none, rfl⟩
    | success body =>
      cases body with
      | falsy => exact ⟨none, rfl⟩
      | record slot =>
        obtain ⟨tso, ao, vo⟩ := slot
        cases tso with
        | none => exact ⟨some [], rfl⟩
        | some ts =>
          have hp := h ⟨some ts, ao, vo⟩ ts rfl rfl
          cases hpp : parseYMD (timestampDatePart ts) with
          | none => rw [hpp] at hp; simp at hp
          | some d =>
            simp only [check_appointments, hpp]
            by_cases hc : (c.target_date.isNone || Date.le d (c.target_date.getD d)) = true
            · rw [if_pos hc]; exact ⟨_, rfl⟩
            · rw [if_neg hc]; exact ⟨some [], rfl⟩
  by_cases ht : truthyResult v = true
  · simp [run, hv, ht]
  · simp [run, hv, ht]

/-- Witness for the amended C2 at a concrete in-range record. -/
theorem C2_witness :
    (run sampleChecker
        (.success (.record { timestamp := some "2025-04-15T09:00:00", active := some 2, total := some 5 }))
        "2025-01-01 00:00:00" .ok).result = .ok () := by
  apply C2_run_completes
  intro slot ts hf hts
  injection hf with h1
  injection h1 with h2
  subst h2
  injection hts with h3
  subst h3
  decide

/-- C5: when any of the three credential fields is absent,
`send_notification` prints the configuration-missing warning and returns
without composing a message or attempting any SMTP operation. -/
theorem C5_missing_credentials (c : Checker) (appointments : List OutSlot)
    (smtp : SmtpOutcome)
    (h : c.email_sender = none ∨ c.email_password = none ∨ c.email_recipient = none) :
    send_notification c appointments smtp =
      { self := c
        output := ["Email configuration missing. Please check your .env file."]
        composed := none
        actions := [] } := by
  rcases h with h | h | h <;> simp [send_notification, truthyEnv, h]

/-- Witness for C5 with the sender unset. -/
theorem C5_witness :
    send_notification noSenderChecker [] .ok =
      { self := noSenderChecker
        output := ["Email configuration missing. Please check your .env file."]
        composed := none
        actions := [] } :=
  C5_missing_credentials noSenderChecker [] .ok (Or.inl rfl)

/-- C9 (Scenario A): with target date 2025-05-01 and a fetched record
with timestamp "2025-04-15T09:00:00", active=2, total=5, the collection
holds exactly that one slot, and the composed email has the fixed
subject and a plain-text body containing the timestamp and both count
lines, the entry terminated by a blank line. -/
theorem C9_scenario_A :
    (check_appointments sampleChecker
        (.success (.record { timestamp := some "2025-04-15T09:00:00", active := some 2, total := some 5 }))
        "2025-04-01 08:00:00").result =
      .ok (some [{ startTimestamp := "2025-04-15T09:00:00", active := 2, total := 5 }]) ∧
    (send_notification sampleChecker
        [{ startTimestamp := "2025-04-15T09:00:00", active := 2, total := 5 }] .ok).composed =
      some { subject := "Global Entry Appointment Available!"
             fromAddr := "sender@example.com"
             toAddr := "recipient@example.com"
             bodyText := "Available Global Entry Appointments:\n\nDate: 2025-04-15T09:00:00\nActive Slots: 2\nTotal Slots: 5\n\n" } ∧
    containsStr "Available Global Entry Appointments:\n\nDate: 2025-04-15T09:00:00\nActive Slots: 2\nTotal Slots: 5\n\n"
      "2025-04-15T09:00:00" ∧
    containsStr "Available Global Entry Appointments:\n\nDate: 2025-04-15T09:00:00\nActive Slots: 2\nTotal Slots: 5\n\n"
      "Active Slots: 2" ∧
    containsStr "Available Global Entry Appointments:\n\nDate: 2025-04-15T09:00:00\nActive Slots: 2\nTotal Slots: 5\n\n"
      "Total Slots: 5" :=
  ⟨rfl, rfl,
    ⟨"Available Global Entry Appointments:\n\nDate: ",
      "\nActive Slots: 2\nTotal Slots: 5\n\n", by decide⟩,
    ⟨"Available Global Entry Appointments:\n\nDate: 2025-04-15T09:00:00\n",
      "\nTotal Slots: 5\n\n", by decide⟩,
    ⟨"Available Global Entry Appointments:\n\nDate: 2025-04-15T09:00:00\nActive Slots: 2\n",
      "\n\n", by decide⟩⟩

/-- `check_appointments` returns the object unchanged. -/
theorem check_self_eq (c : Checker) (fetch : FetchOutcome) (now : String) :
    (check_appointments c fetch now).self = c := by
  unfold check_appointments
  (repeat' split) <;> rfl

/-- `send_notification` returns the object unchanged. -/
theorem notify_self_eq (c : Checker) (appointments : List OutSlot) (smtp : SmtpOutcome) :
    (send_notification c appointments smtp).self = c := by
  unfold send_notification
  (repeat' split) <;> rfl

/-- `run` returns the object unchanged. -/
theorem run_self_eq (c : Checker) (fetch : FetchOutcome) (now : String)
    (smtp : SmtpOutcome) : (run c fetch now smtp).self = c := by
  cases hres : (check_appointments c fetch now).result with
  | error e => simp [run, hres, check_self_eq]
  | ok v =>
    by_cases ht : truthyResult v = true
    · simp [run, hres, ht, notify_self_eq, check_self_eq]
    · simp [run, hres, ht, check_self_eq]

/-- C10: every operation leaves the configuration state written by
`__init__` (`base_url`, `location_id`, `target_date`, `check_interval`,
the headers and the three email fields) unchanged: each method returns
the `Checker` object exactly as it received it. -/
theorem C10_config_immutable (c : Checker) (fetch : FetchOutcome) (now : String)
    (appointments : List OutSlot) (smtp : SmtpOutcome) :
    (check_appointments c fetch now).self = c ∧
    (send_notification c appointments smtp).self = c ∧
    (run c fetch now smtp).self = c :=
  ⟨check_self_eq c fetch now, notify_self_eq c appointments smtp,
    run_self_eq c fetch now smtp⟩

end GEC
